import Mathlib

/-!
Shallow embedding of the `gohtml` repository: the `sizes` package (length
units and page sizes), the `selector` package, and the `client` package
(query model, fluent builder, options, and the response handling of
`Client.ConvertHTML`).  Go `time.Duration` values are modelled as integer
nanoseconds, Go `float64` constants as the exact rationals denoted by the
decimal literals of the source, and Go byte slices / strings as Lean `String`
(Go converts between them bijectively and this code never inspects
individual bytes).
-/

namespace GoHTML

/-- Decidable equality for `Except`, used to evaluate the embedded
fallible operations on concrete inputs. -/
instance {ε α : Type} [DecidableEq ε] [DecidableEq α] : DecidableEq (Except ε α) := fun a b =>
  match a, b with
  | .ok x, .ok y =>
    if h : x = y then isTrue (congrArg Except.ok h)
    else isFalse (fun hh => h (by cases hh; rfl))
  | .error x, .error y =>
    if h : x = y then isTrue (congrArg Except.error h)
    else isFalse (fun hh => h (by cases hh; rfl))
  | .ok _, .error _ => isFalse (fun hh => Except.noConfusion hh)
  | .error _, .ok _ => isFalse (fun hh => Except.noConfusion hh)

/-! Durations: Go `time.Duration` as integer nanoseconds. -/

def second : Int := 1000000000

def minute : Int := 60 * second

/-! `sizes` package: conversion constants (src/sizes/sizes.go lines 37-46),
read as exact rationals. -/

def mmToInch : Rat := 1 / (254 / 10)

def inchToMm : Rat := 254 / 10

def pointToMm : Rat := 3528 / 10000

def inchToPoint : Rat := 1 / 64

def mmToPoint : Rat := 1 / pointToMm

def pointToInch : Rat := 139 / 10000

/-! Conversion methods of the three `Length` implementations
(src/sizes/sizes.go lines 83-114). Each Go method `(m Millimeter) Inches()`
etc. is one function on the underlying magnitude. -/

def Millimeter.inches (m : Rat) : Rat := m * mmToInch

def Millimeter.points (m : Rat) : Rat := m * mmToPoint

def Inch.millimeters (i : Rat) : Rat := i * inchToMm

def Inch.points (i : Rat) : Rat := i * inchToPoint

def Point.millimeters (p : Rat) : Rat := p * pointToMm

def Point.inches (p : Rat) : Rat := p * pointToInch

/-- The `sizes.Length` interface: a magnitude tagged with its unit. -/
inductive Length where
  | mm (v : Rat)
  | inch (v : Rat)
  | point (v : Rat)
  deriving DecidableEq, Repr

/-- Dynamic dispatch of `Length.Millimeters()` over the three
implementations. -/
def Length.millimeters : Length → Rat
  | .mm v => v
  | .inch v => Inch.millimeters v
  | .point v => Point.millimeters v

/-! Page sizes: the Go enum `PageSize` is an `int`; `Undefined = 0`,
`A0 = 1`, ..., `Letter = 23`. -/

abbrev PageSize := Int

def pageSizes : List PageSize :=
  [0, 1, 2, 3, 4, 5, 6, 7, 8, 9, 10, 11, 12, 13, 14, 15, 16, 17, 18, 19, 20, 21, 22, 23]

/-- `PageSize.IsAPageSize` (src/sizes/sizes.go lines 328-335): linear scan
of `pageSizes`. -/
def PageSize.isAPageSize (p : PageSize) : Bool :=
  pageSizes.any (fun v => p == v)

def pageSizeNames : String :=
  "UndefinedA0A1A2A3A4A5A6A7A8A9A10B0B1B2B3B4B5B6B7B8B9B10Letter"

def pageSizeIdx : List Nat :=
  [0, 9, 11, 13, 15, 17, 19, 21, 23, 25, 27, 29, 32, 34, 36, 38, 40, 42, 44, 46, 48, 50, 52, 55, 61]

/-- The substring `pageSizeNames[pageSizeIdx[i]:pageSizeIdx[i+1]]`. -/
def pageSizeSlice (i : Nat) : String :=
  String.mk (((pageSizeNames.data.drop (pageSizeIdx.getD i 0))).take
    (pageSizeIdx.getD (i + 1) 0 - pageSizeIdx.getD i 0))

/-- `PageSize.String` (src/sizes/sizes.go lines 235-240). -/
def PageSize.toName (p : PageSize) : String :=
  if p < 0 ∨ p ≥ 24 then "PageSize(" ++ toString p ++ ")"
  else pageSizeSlice p.toNat

/-! Errors: Go `error` values of this repository as an inductive type.
The named sentinel errors are dedicated constructors; `errors.New` /
`fmt.Errorf` messages are `msg`; `fmt.Errorf` with a `%w` verb wrapping
error `e` after text `s` is `wrap s e`. -/

inductive GoErr where
  | missingData
  | contentTypeErr
  | contentTypeDeclared
  | notFound
  | badRequest
  | notImplemented
  | internalError
  | badGateway
  | unauthorized
  | timedOut
  | msg (s : String)
  | wrap (s : String) (e : GoErr)
  deriving DecidableEq, Repr

/-- The map built by the `sizes` package `init` (src/sizes/sizes.go lines
228-233): canonical name to enum value, as an association list. -/
def pageSizeMap : List (String × PageSize) :=
  (List.range 24).map (fun i => (pageSizeSlice i, Int.ofNat i))

/-- `PageSizeString` (src/sizes/sizes.go lines 269-274). -/
def pageSizeString (s : String) : Except GoErr PageSize :=
  match pageSizeMap.lookup s with
  | some v => .ok v
  | none => .error (.msg (s ++ " does not belong to PageSize values"))

/-! `selector` package (src/unnamed/part_001 lines 225-248):
`ByUndefined = 0`, `ByID = 1`, ..., `BySearch = 6`; `ByType` is a `uint`. -/

abbrev ByType := Nat

/-- `ByType.Validate`: valid iff `ByID <= b <= BySearch`. -/
def ByType.validate (b : ByType) : Option GoErr :=
  if 1 ≤ b ∧ b ≤ 6 then none else some (.msg "invalid by selector")

/-- `client.BySelector` (src/unnamed/part_000 lines 206-209).  The Go
field `By` is named `byType` here (`by` is reserved in Lean). -/
structure BySelector where
  selector : String
  byType : ByType
  deriving DecidableEq, Repr

/-- `BySelector.Validate` (src/unnamed/part_000 lines 414-422). -/
def BySelector.validate (b : BySelector) : Option GoErr :=
  if b.selector = "" then some (.msg "provided empty selector")
  else ByType.validate b.byType

/-- `RenderParameters` (src/unnamed/part_000 lines 243-247). -/
structure RenderParameters where
  waitTime : Int
  waitReady : List BySelector
  waitVisible : List BySelector
  deriving DecidableEq, Repr

/-- The `for _, _de := range rp.WaitReady` loop body of
`RenderParameters.Validate`: first invalid entry wins. -/
def validateWaitReadyList : List BySelector → Option GoErr
  | [] => none
  | s :: rest =>
    match BySelector.validate s with
    | some e => some (.wrap "one of wait ready selector is not valid: " e)
    | none => validateWaitReadyList rest

/-- `RenderParameters.Validate` (src/unnamed/part_000 lines 262-272).
Note: the source iterates over `WaitReady` only; `WaitVisible` is never
inspected. -/
def RenderParameters.validate (rp : RenderParameters) : Option GoErr :=
  if rp.waitTime > 3 * minute then
    some (.msg "too long minimum load time. Maximum is 3 minutes")
  else validateWaitReadyList rp.waitReady

/-- `PageParameters` (src/unnamed/part_000 lines 139-164).  The Go length
fields hold a possibly-nil `sizes.Length` interface value, and `PageSize`
a possibly-nil pointer; both are `Option` here.  `Orientation` is the
Go bool wrapper: `false` = portrait, `true` = landscape. -/
structure PageParameters where
  paperWidth : Option Length
  paperHeight : Option Length
  pageSize : Option PageSize
  orientation : Bool
  marginTop : Option Length
  marginBottom : Option Length
  marginLeft : Option Length
  marginRight : Option Length
  deriving DecidableEq, Repr

/-- One `if p.X != nil { if p.X.Millimeters() < 0 { ... } }` guard of
`PageParameters.Validate`. -/
def negLength (l : Option Length) : Bool :=
  match l with
  | some v => decide (Length.millimeters v < 0)
  | none => false

/-- `PageParameters.Validate` (src/unnamed/part_000 lines 333-368). -/
def PageParameters.validate (p : PageParameters) : Option GoErr :=
  if negLength p.paperWidth then some (.msg "negative value for PaperWidth")
  else if negLength p.paperHeight then some (.msg "negative value for PaperHeight")
  else if negLength p.marginTop then some (.msg "negative value for MarginTop")
  else if negLength p.marginBottom then some (.msg "negative value for MarginBottom")
  else if negLength p.marginLeft then some (.msg "negative value for MarginLeft")
  else if negLength p.marginRight then some (.msg "negative value for MarginRight")
  else
    match p.pageSize with
    | some ps => if ¬ PageSize.isAPageSize ps then some (.msg "invalid page size") else none
    | none => none

/-- `client.Query` (src/unnamed/part_000 lines 441-449). -/
structure Query where
  content : String
  contentType : String
  url : String
  method : String
  pageParameters : PageParameters
  renderParameters : RenderParameters
  timeoutDuration : Int
  deriving DecidableEq, Repr

/-- The `switch q.Method` content check opening `Query.Validate`
(src/unnamed/part_000 lines 540-554). -/
def Query.contentCheck (q : Query) : Option GoErr :=
  if q.method = "web" then
    if q.url = "" then some .missingData else none
  else if q.method = "dir" ∨ q.method = "html" then
    if q.content = "" then some .missingData
    else if q.contentType = "" then some .contentTypeErr
    else none
  else some (.msg ("undefined content query method: " ++ q.method))

/-- `Query.Validate` (src/unnamed/part_000 lines 539-563): content check,
then page parameters, then render parameters; first error wins. -/
def Query.validate (q : Query) : Option GoErr :=
  match q.contentCheck with
  | some e => some e
  | none =>
    match PageParameters.validate q.pageParameters with
    | some e => some e
    | none => RenderParameters.validate q.renderParameters

/-- The `content.Content` interface (src/unnamed/part_000 lines 620-624):
a capability yielding data bytes, a content type and a method. -/
structure Content where
  data : String
  contentType : String
  method : String
  deriving DecidableEq, Repr

/-- `client.QueryBuilder` (src/unnamed/part_000 lines 458-461): a draft
query plus a sticky first error. -/
structure QueryBuilder where
  query : Query
  err : Option GoErr
  deriving DecidableEq, Repr

/-- The zero value of `Query` (all Go zero values). -/
def zeroQuery : Query :=
  { content := "", contentType := "", url := "", method := "",
    pageParameters :=
      { paperWidth := none, paperHeight := none, pageSize := none, orientation := false,
        marginTop := none, marginBottom := none, marginLeft := none, marginRight := none },
    renderParameters := { waitTime := 0, waitReady := [], waitVisible := [] },
    timeoutDuration := 0 }

/-- `BuildHTMLQuery` (src/unnamed/part_000 line 86): the zero-value
builder. -/
def buildHTMLQuery : QueryBuilder := { query := zeroQuery, err := none }

/-- `QueryBuilder.SetContent` (src/unnamed/part_000 lines 286-315). -/
def QueryBuilder.setContent (q : QueryBuilder) (c : Content) : QueryBuilder :=
  match q.err with
  | some _ => q
  | none =>
    if c.method = "dir" ∨ c.method = "html" then
      if q.query.contentType ≠ "" then { q with err := some .contentTypeDeclared }
      else if c.contentType = "" then
        { q with err := some (.wrap "empty custom content type " .contentTypeErr) }
      else
        { q with query :=
          { q.query with content := c.data, contentType := c.contentType, method := c.method } }
    else if c.method = "web" then
      if q.query.contentType ≠ "" then { q with err := some .contentTypeDeclared }
      else
        { q with query :=
          { q.query with url := c.data, contentType := c.contentType, method := c.method } }
    else { q with err := some (.msg ("invalid content method: " ++ c.method)) }

/-- `QueryBuilder.PaperWidth` (src/unnamed/part_000 lines 133-136). -/
def QueryBuilder.paperWidth (q : QueryBuilder) (l : Length) : QueryBuilder :=
  { q with query := { q.query with pageParameters :=
    { q.query.pageParameters with paperWidth := some l } } }

/-- `QueryBuilder.PaperHeight` (src/unnamed/part_000 lines 256-259). -/
def QueryBuilder.paperHeight (q : QueryBuilder) (l : Length) : QueryBuilder :=
  { q with query := { q.query with pageParameters :=
    { q.query.pageParameters with paperHeight := some l } } }

/-- `QueryBuilder.PageSize` (src/unnamed/part_000 lines 212-217): only a
non-`Undefined` size is recorded. -/
def QueryBuilder.pageSize (q : QueryBuilder) (p : PageSize) : QueryBuilder :=
  if p ≠ 0 then
    { q with query := { q.query with pageParameters :=
      { q.query.pageParameters with pageSize := some p } } }
  else q

/-- `QueryBuilder.Orientation` (src/unnamed/part_000 lines 63-66). -/
def QueryBuilder.orientation (q : QueryBuilder) (o : Bool) : QueryBuilder :=
  { q with query := { q.query with pageParameters :=
    { q.query.pageParameters with orientation := o } } }

/-- `QueryBuilder.MarginTop` (src/unnamed/part_000 lines 425-428). -/
def QueryBuilder.marginTop (q : QueryBuilder) (l : Length) : QueryBuilder :=
  { q with query := { q.query with pageParameters :=
    { q.query.pageParameters with marginTop := some l } } }

/-- `QueryBuilder.MarginBottom` (src/unnamed/part_000 lines 402-405). -/
def QueryBuilder.marginBottom (q : QueryBuilder) (l : Length) : QueryBuilder :=
  { q with query := { q.query with pageParameters :=
    { q.query.pageParameters with marginBottom := some l } } }

/-- `QueryBuilder.MarginLeft` (src/unnamed/part_000 lines 237-240). -/
def QueryBuilder.marginLeft (q : QueryBuilder) (l : Length) : QueryBuilder :=
  { q with query := { q.query with pageParameters :=
    { q.query.pageParameters with marginLeft := some l } } }

/-- `QueryBuilder.MarginRight` (src/unnamed/part_000 lines 167-170). -/
def QueryBuilder.marginRight (q : QueryBuilder) (l : Length) : QueryBuilder :=
  { q with query := { q.query with pageParameters :=
    { q.query.pageParameters with marginRight := some l } } }

/-- `QueryBuilder.WaitTime` (src/unnamed/part_000 lines 571-575). -/
def QueryBuilder.waitTime (q : QueryBuilder) (d : Int) : QueryBuilder :=
  { q with query := { q.query with renderParameters :=
    { q.query.renderParameters with waitTime := d } } }

/-- `QueryBuilder.WaitReady` (src/unnamed/part_000 lines 250-253). -/
def QueryBuilder.waitReady (q : QueryBuilder) (s : String) (b : ByType) : QueryBuilder :=
  { q with query := { q.query with renderParameters :=
    { q.query.renderParameters with waitReady :=
      q.query.renderParameters.waitReady ++ [{ selector := s, byType := b }] } } }

/-- `QueryBuilder.WaitVisible` (src/unnamed/part_000 lines 324-327). -/
def QueryBuilder.waitVisible (q : QueryBuilder) (s : String) (b : ByType) : QueryBuilder :=
  { q with query := { q.query with renderParameters :=
    { q.query.renderParameters with waitVisible :=
      q.query.renderParameters.waitVisible ++ [{ selector := s, byType := b }] } } }

/-- `QueryBuilder.TimeoutDuration` (src/unnamed/part_000 lines 104-107). -/
def QueryBuilder.timeoutDuration (q : QueryBuilder) (d : Int) : QueryBuilder :=
  { q with query := { q.query with timeoutDuration := d } }

/-- `QueryBuilder.Validate` (src/unnamed/part_000 lines 223-228): sticky
error first, then full query validation. -/
def QueryBuilder.validate (q : QueryBuilder) : Option GoErr :=
  match q.err with
  | some e => some e
  | none => Query.validate q.query

/-- `QueryBuilder.Query` (src/unnamed/part_000 lines 95-100): finalize. -/
def QueryBuilder.finalQuery (q : QueryBuilder) : Except GoErr Query :=
  match q.validate with
  | some e => .error e
  | none => .ok q.query

/-! Client configuration (src/unnamed/part_000 lines 28-34, 69-83).
The Go `Prefix` field is named `pathPfx` here. -/

structure Options where
  https : Bool
  hostname : String
  port : Int
  defaultTimeout : Int
  pathPfx : String
  deriving DecidableEq, Repr

/-- The `Timeout` carried by the embedded `http.Client`. -/
structure HTTPClient where
  timeout : Int
  deriving DecidableEq, Repr

/-- `client.Client` (src/unnamed/part_000 lines 200-203). -/
structure Client where
  options : Options
  httpClient : HTTPClient
  deriving DecidableEq, Repr

/-- `New` (src/unnamed/part_000 lines 69-83): always overwrites
`DefaultTimeout` with 30 seconds, defaults the port to 8080 when
non-positive and the hostname to 127.0.0.1 when empty. -/
def new (o : Options) : Client :=
  let o1 := { o with defaultTimeout := 30 * second }
  let o2 := if o1.port ≤ 0 then { o1 with port := 8080 } else o1
  let o3 := if o2.hostname = "" then { o2 with hostname := "127.0.0.1" } else o2
  { options := o3, httpClient := { timeout := o3.defaultTimeout } }

/-- `WithDefaultTimeout` (src/unnamed/part_000 lines 89-91) applied to an
options value. -/
def withDefaultTimeout (d : Int) (o : Options) : Options :=
  { o with defaultTimeout := d }

/-! The response-handling phase of `Client.ConvertHTML`
(src/unnamed/part_000 lines 465-536). -/

/-- The fields of the `http.Response` that `ConvertHTML` reads: status
code, `Content-Encoding` header, body bytes and `X-Job-ID` header. -/
structure HTTPResponse where
  statusCode : Int
  contentEncoding : String
  body : String
  jobID : String
  deriving DecidableEq, Repr

/-- `PDFResponse` (src/unnamed/part_000 lines 231-234). -/
structure PDFResponse where
  id : String
  data : String
  deriving DecidableEq, Repr

/-- The `switch resp.StatusCode` of `ConvertHTML` (lines 490-505):
`none` means success (201). -/
def statusHTTPErr (code : Int) : Option GoErr :=
  if code = 404 then some .notFound
  else if code = 400 then some .badRequest
  else if code = 501 then some .notImplemented
  else if code = 401 then some .unauthorized
  else if code = 408 then some .timedOut
  else if code = 201 then none
  else some .internalError

/-- The `switch resp.Header.Get("Content-Encoding")` of `ConvertHTML`
(lines 507-525) followed by reading the chosen reader.  The gzip and
deflate codecs live outside this repository, so the two decompressors are
parameters; `gzip.NewReader` can fail on a bad header, hence `Option`. -/
def decodeBody (gzipDec : String → Option String) (deflateDec : String → String)
    (enc : String) (body : String) : Except GoErr String :=
  if enc = "gzip" then
    match gzipDec body with
    | some d => .ok d
    | none => .error (.msg "gzip: invalid header")
  else if enc = "deflate" then .ok (deflateDec body)
  else if enc = "" then .ok body
  else .error (.msg ("unsupported Content-Encoding: " ++ enc ++ " header"))

/-- The response-handling tail of `Client.ConvertHTML` (lines 489-536):
map the status, decode the body, then either wrap the decoded diagnostic
text around the mapped error (`fmt.Errorf("%s %w", string(data), httpErr)`)
or return the job id from `X-Job-ID` with the decoded data. -/
def handleConvertResponse (gzipDec : String → Option String) (deflateDec : String → String)
    (resp : HTTPResponse) : Except GoErr PDFResponse :=
  let httpErr := statusHTTPErr resp.statusCode
  match decodeBody gzipDec deflateDec resp.contentEncoding resp.body with
  | .error e => .error e
  | .ok data =>
    match httpErr with
    | some e => .error (.wrap data e)
    | none => .ok { id := resp.jobID, data := data }

/-- The per-call client copy of `ConvertHTML` (lines 478-483):
`httpClient := *cli.Client` then an override of the timeout of that copy when
the query carries a non-zero `TimeoutDuration`.  Returns the client copy
the call uses and the stored client after the call. -/
def convertCallClient (cli : Client) (q : Query) : HTTPClient × Client :=
  let httpClient := cli.httpClient
  let httpClient :=
    if q.timeoutDuration ≠ 0 then { httpClient with timeout := q.timeoutDuration }
    else httpClient
  (httpClient, cli)

/-! Concrete fixtures used to evaluate the embedding on specific inputs. -/

/-- A `content.StringContent`-shaped value: inline markup, method `html`,
content type `text/html`. -/
def c1Content : Content :=
  { data := "<html></html>", contentType := "text/html", method := "html" }

/-- The builder after `SetContent` has been called twice with the same
HTML content: the second call records `ErrContentTypeDeclared`. -/
def c1Builder : QueryBuilder :=
  (buildHTMLQuery.setContent c1Content).setContent c1Content

/-- Page parameters with every dimension absent and no page size. -/
def ppZero : PageParameters :=
  { paperWidth := none, paperHeight := none, pageSize := none, orientation := false,
    marginTop := none, marginBottom := none, marginLeft := none, marginRight := none }

/-- Page parameters whose only set dimension, the paper width, is
negative. -/
def ppNegWidth : PageParameters := { ppZero with paperWidth := some (Length.mm (-1)) }

/-- The zero-value `Options`, as a caller would pass with no settings. -/
def o0 : Options :=
  { https := false, hostname := "", port := 0, defaultTimeout := 0, pathPfx := "" }

/-! Claim theorems. -/

/-- Claim C1, counterexample: after `SetContent` has been called a second
time (so the sticky error `ErrContentTypeDeclared` is recorded), a
subsequent `MarginTop` call still changes the draft query — the claimed
"every subsequent builder setter call is a no-op" is false: only
`SetContent` checks the sticky error. -/
theorem c1_sticky_noop_counterexample :
    c1Builder.err = some GoErr.contentTypeDeclared ∧
    (c1Builder.marginTop (Length.mm 5)).query ≠ c1Builder.query := by
  decide

/-- Claim C1 (amended): once a sticky error is recorded in the builder,
every subsequent `SetContent` call is a no-op, and while the remaining
setters still mutate their own field of the draft query, none of them
touches the sticky error, so `Err()` keeps reporting the first error and
finalization (`Validate`, hence `Query()`) fails with that same first
error. -/
theorem c1_sticky_error_amended (qb : QueryBuilder) (e : GoErr) (h : qb.err = some e)
    (c : Content) (l : Length) (p : PageSize) (o : Bool) (d : Int) (s : String) (b : ByType) :
    qb.setContent c = qb ∧
    (qb.paperWidth l).err = some e ∧
    (qb.paperHeight l).err = some e ∧
    (qb.pageSize p).err = some e ∧
    (qb.orientation o).err = some e ∧
    (qb.marginTop l).err = some e ∧
    (qb.marginBottom l).err = some e ∧
    (qb.marginLeft l).err = some e ∧
    (qb.marginRight l).err = some e ∧
    (qb.waitTime d).err = some e ∧
    (qb.waitReady s b).err = some e ∧
    (qb.waitVisible s b).err = some e ∧
    (qb.timeoutDuration d).err = some e ∧
    qb.validate = some e := by
  simp [QueryBuilder.setContent, QueryBuilder.paperWidth, QueryBuilder.paperHeight,
    QueryBuilder.pageSize, QueryBuilder.orientation, QueryBuilder.marginTop,
    QueryBuilder.marginBottom, QueryBuilder.marginLeft, QueryBuilder.marginRight,
    QueryBuilder.waitTime, QueryBuilder.waitReady, QueryBuilder.waitVisible,
    QueryBuilder.timeoutDuration, QueryBuilder.validate, h, apply_ite]

/-- Witness for C1 (amended), at the concrete double-`SetContent` builder
whose sticky error is `ErrContentTypeDeclared`. -/
theorem c1_sticky_error_amended_witness :
    c1Builder.err = some GoErr.contentTypeDeclared ∧
    (c1Builder.setContent c1Content = c1Builder ∧
      (c1Builder.paperWidth (Length.mm 1)).err = some GoErr.contentTypeDeclared ∧
      (c1Builder.paperHeight (Length.mm 1)).err = some GoErr.contentTypeDeclared ∧
      (c1Builder.pageSize 4).err = some GoErr.contentTypeDeclared ∧
      (c1Builder.orientation true).err = some GoErr.contentTypeDeclared ∧
      (c1Builder.marginTop (Length.mm 1)).err = some GoErr.contentTypeDeclared ∧
      (c1Builder.marginBottom (Length.mm 1)).err = some GoErr.contentTypeDeclared ∧
      (c1Builder.marginLeft (Length.mm 1)).err = some GoErr.contentTypeDeclared ∧
      (c1Builder.marginRight (Length.mm 1)).err = some GoErr.contentTypeDeclared ∧
      (c1Builder.waitTime 7).err = some GoErr.contentTypeDeclared ∧
      (c1Builder.waitReady "div" 1).err = some GoErr.contentTypeDeclared ∧
      (c1Builder.waitVisible "div" 1).err = some GoErr.contentTypeDeclared ∧
      (c1Builder.timeoutDuration 7).err = some GoErr.contentTypeDeclared ∧
      c1Builder.validate = some GoErr.contentTypeDeclared) :=
  ⟨by decide,
   c1_sticky_error_amended c1Builder GoErr.contentTypeDeclared (by decide)
     c1Content (Length.mm 1) 4 true 7 "div" 1⟩

/-- Claim C2: `ConvertHTML` maps the response status exactly as 201 =
success, 400 = `ErrBadRequest`, 401 = `ErrUnauthorized`, 404 =
`ErrNotFound`, 408 = `ErrTimedOut`, 501 = `ErrNotImplemented`, anything
else = `ErrInternalError`; an error embeds the decoded body text with the
mapped error, and on 201 the `PDFResponse` carries the `X-Job-ID` header
as its id and the decoded body as its data. -/
theorem c2_convert_status_mapping (gzipDec : String → Option String)
    (deflateDec : String → String) (resp : HTTPResponse) (data : String)
    (hdec : decodeBody gzipDec deflateDec resp.contentEncoding resp.body = .ok data) :
    (resp.statusCode = 201 →
      handleConvertResponse gzipDec deflateDec resp = .ok { id := resp.jobID, data := data }) ∧
    (resp.statusCode = 400 →
      handleConvertResponse gzipDec deflateDec resp = .error (.wrap data .badRequest)) ∧
    (resp.statusCode = 401 →
      handleConvertResponse gzipDec deflateDec resp = .error (.wrap data .unauthorized)) ∧
    (resp.statusCode = 404 →
      handleConvertResponse gzipDec deflateDec resp = .error (.wrap data .notFound)) ∧
    (resp.statusCode = 408 →
      handleConvertResponse gzipDec deflateDec resp = .error (.wrap data .timedOut)) ∧
    (resp.statusCode = 501 →
      handleConvertResponse gzipDec deflateDec resp = .error (.wrap data .notImplemented)) ∧
    (resp.statusCode ∉ ([201, 400, 401, 404, 408, 501] : List Int) →
      handleConvertResponse gzipDec deflateDec resp = .error (.wrap data .internalError)) := by
  refine ⟨?_, ?_, ?_, ?_, ?_, ?_, ?_⟩
  · intro h; simp [handleConvertResponse, statusHTTPErr, hdec, h]
  · intro h; simp [handleConvertResponse, statusHTTPErr, hdec, h]
  · intro h; simp [handleConvertResponse, statusHTTPErr, hdec, h]
  · intro h; simp [handleConvertResponse, statusHTTPErr, hdec, h]
  · intro h; simp [handleConvertResponse, statusHTTPErr, hdec, h]
  · intro h; simp [handleConvertResponse, statusHTTPErr, hdec, h]
  · intro h
    simp only [List.mem_cons, List.not_mem_nil, or_false, not_or] at h
    obtain ⟨h201, h400, h401, h404, h408, h501⟩ := h
    simp [handleConvertResponse, statusHTTPErr, hdec, h201, h400, h401, h404, h408, h501]

/-- Witness for C2: a passthrough body, once at status 400 (error wraps
the diagnostic text) and once at status 201 (success with job id). -/
theorem c2_convert_status_mapping_witness :
    decodeBody (fun s => some s) (fun s => s) "" "diag" = Except.ok "diag" ∧
    handleConvertResponse (fun s => some s) (fun s => s)
        { statusCode := 400, contentEncoding := "", body := "diag", jobID := "" }
      = Except.error (GoErr.wrap "diag" GoErr.badRequest) ∧
    handleConvertResponse (fun s => some s) (fun s => s)
        { statusCode := 201, contentEncoding := "", body := "diag", jobID := "job7" }
      = Except.ok { id := "job7", data := "diag" } :=
  ⟨by decide,
   (c2_convert_status_mapping (fun s => some s) (fun s => s)
       { statusCode := 400, contentEncoding := "", body := "diag", jobID := "" } "diag"
       (by decide)).2.1 rfl,
   (c2_convert_status_mapping (fun s => some s) (fun s => s)
       { statusCode := 201, contentEncoding := "", body := "diag", jobID := "job7" } "diag"
       (by decide)).1 rfl⟩

/-- Claim C3: the content check of `Query.Validate` — method `web` with
empty URL fails `ErrMissingData`; methods `html`/`dir` with empty content
fail `ErrMissingData`, and with non-empty content but empty content type
fail `ErrContentType`; any other method fails with the "undefined content
query method" error naming the method; otherwise the content check
passes. -/
theorem c3_query_validate_content (q : Query) :
    (q.method = "web" → q.url = "" → Query.validate q = some GoErr.missingData) ∧
    ((q.method = "html" ∨ q.method = "dir") → q.content = "" →
      Query.validate q = some GoErr.missingData) ∧
    ((q.method = "html" ∨ q.method = "dir") → q.content ≠ "" → q.contentType = "" →
      Query.validate q = some GoErr.contentTypeErr) ∧
    (q.method ≠ "web" → q.method ≠ "html" → q.method ≠ "dir" →
      Query.validate q = some (GoErr.msg ("undefined content query method: " ++ q.method))) ∧
    ((q.method = "web" ∧ q.url ≠ "") ∨
      ((q.method = "html" ∨ q.method = "dir") ∧ q.content ≠ "" ∧ q.contentType ≠ "") →
      Query.contentCheck q = none) := by
  refine ⟨?_, ?_, ?_, ?_, ?_⟩
  · intro hm hu
    simp [Query.validate, Query.contentCheck, hm, hu]
  · intro hm hc
    rcases hm with hm | hm <;> simp [Query.validate, Query.contentCheck, hm, hc]
  · intro hm hc hct
    rcases hm with hm | hm <;> simp [Query.validate, Query.contentCheck, hm, hc, hct]
  · intro h1 h2 h3
    simp [Query.validate, Query.contentCheck, h1, h2, h3]
  · intro h
    rcases h with ⟨hm, hu⟩ | ⟨hm | hm, hc, hct⟩
    · simp [Query.contentCheck, hm, hu]
    · simp [Query.contentCheck, hm, hc, hct]
    · simp [Query.contentCheck, hm, hc, hct]

/-- Witness for C3: three concrete queries, one per content-check
branch. -/
theorem c3_query_validate_content_witness :
    Query.validate { zeroQuery with method := "web" } = some GoErr.missingData ∧
    Query.validate { zeroQuery with method := "html", content := "x" }
      = some GoErr.contentTypeErr ∧
    Query.contentCheck { zeroQuery with method := "web", url := "http://u" } = none :=
  ⟨(c3_query_validate_content { zeroQuery with method := "web" }).1 rfl rfl,
   (c3_query_validate_content { zeroQuery with method := "html", content := "x" }).2.2.1
     (Or.inl rfl) (by decide) rfl,
   (c3_query_validate_content { zeroQuery with method := "web", url := "http://u" }).2.2.2.2
     (Or.inl ⟨rfl, by decide⟩)⟩

/-- Claim C4: the response body is decoded according to the
`Content-Encoding` header — `gzip` applies the gzip decompressor (an
inverse of gzip compression yields the original payload), `deflate`
applies the deflate decompressor, an empty header passes the body through
unchanged, and any other value fails with the unsupported-encoding error
no matter what the HTTP status was. -/
theorem c4_content_encoding (gzipComp : String → String) (gzipDec : String → Option String)
    (deflateComp : String → String) (deflateDec : String → String)
    (payload : String) (hgz : gzipDec (gzipComp payload) = some payload)
    (hdf : deflateDec (deflateComp payload) = payload)
    (status : Int) (jobID : String) (body : String) :
    (handleConvertResponse gzipDec deflateDec
        { statusCode := 201, contentEncoding := "gzip", body := gzipComp payload, jobID := jobID }
      = .ok { id := jobID, data := payload }) ∧
    (handleConvertResponse gzipDec deflateDec
        { statusCode := 201, contentEncoding := "deflate", body := deflateComp payload,
          jobID := jobID }
      = .ok { id := jobID, data := payload }) ∧
    (handleConvertResponse gzipDec deflateDec
        { statusCode := 201, contentEncoding := "", body := body, jobID := jobID }
      = .ok { id := jobID, data := body }) ∧
    (∀ enc, enc ≠ "gzip" → enc ≠ "deflate" → enc ≠ "" →
      handleConvertResponse gzipDec deflateDec
          { statusCode := status, contentEncoding := enc, body := body, jobID := jobID }
        = .error (.msg ("unsupported Content-Encoding: " ++ enc ++ " header"))) := by
  refine ⟨?_, ?_, ?_, ?_⟩
  · simp [handleConvertResponse, decodeBody, statusHTTPErr, hgz]
  · simp [handleConvertResponse, decodeBody, statusHTTPErr, hdf]
  · simp [handleConvertResponse, decodeBody, statusHTTPErr]
  · intro enc h1 h2 h3
    simp [handleConvertResponse, decodeBody, h1, h2, h3]

/-- Witness for C4: with identity codecs, a gzip-encoded 201 response
round-trips the payload, and an unknown encoding `br` fails even on a
status (400) that itself maps to a server-reported error. -/
theorem c4_content_encoding_witness :
    handleConvertResponse (fun s => some s) (fun s => s)
        { statusCode := 201, contentEncoding := "gzip", body := "pdfbytes", jobID := "j" }
      = Except.ok { id := "j", data := "pdfbytes" } ∧
    handleConvertResponse (fun s => some s) (fun s => s)
        { statusCode := 400, contentEncoding := "br", body := "b", jobID := "j" }
      = Except.error (GoErr.msg ("unsupported Content-Encoding: " ++ "br" ++ " header")) :=
  ⟨(c4_content_encoding (fun s => s) (fun s => some s) (fun s => s) (fun s => s)
      "pdfbytes" rfl rfl 400 "j" "b").1,
   (c4_content_encoding (fun s => s) (fun s => some s) (fun s => s) (fun s => s)
      "pdfbytes" rfl rfl 400 "j" "b").2.2.2 "br" (by decide) (by decide) (by decide)⟩

/-- Claim C5, code-bug evidence: `RenderParameters.Validate` accepts a
value whose `WaitVisible` list contains a selector that
`BySelector.Validate` itself rejects (empty selector string) — the
validation loop ranges over `WaitReady` only and never inspects the
`WaitVisible` list. -/
theorem c5_wait_visible_not_validated :
    RenderParameters.validate
        { waitTime := 0, waitReady := [], waitVisible := [{ selector := "", byType := 1 }] }
      = none ∧
    BySelector.validate { selector := "", byType := 1 }
      = some (GoErr.msg "provided empty selector") := by
  decide

/-- Claim C6: `PageParameters.Validate` succeeds when every dimension is
absent or non-negative (in millimeters) and any set page size is a
recognized enum value; when exactly one dimension is negative it fails
with the error naming that dimension (and fixing it restores success,
which is the first conjunct). -/
theorem c6_page_parameters_validate (p : PageParameters)
    (hps : ∀ ps, p.pageSize = some ps → PageSize.isAPageSize ps = true) :
    ((negLength p.paperWidth = false ∧ negLength p.paperHeight = false ∧
      negLength p.marginTop = false ∧ negLength p.marginBottom = false ∧
      negLength p.marginLeft = false ∧ negLength p.marginRight = false) →
      PageParameters.validate p = none) ∧
    ((negLength p.paperWidth = true ∧ negLength p.paperHeight = false ∧
      negLength p.marginTop = false ∧ negLength p.marginBottom = false ∧
      negLength p.marginLeft = false ∧ negLength p.marginRight = false) →
      PageParameters.validate p = some (GoErr.msg "negative value for PaperWidth")) ∧
    ((negLength p.paperWidth = false ∧ negLength p.paperHeight = true ∧
      negLength p.marginTop = false ∧ negLength p.marginBottom = false ∧
      negLength p.marginLeft = false ∧ negLength p.marginRight = false) →
      PageParameters.validate p = some (GoErr.msg "negative value for PaperHeight")) ∧
    ((negLength p.paperWidth = false ∧ negLength p.paperHeight = false ∧
      negLength p.marginTop = true ∧ negLength p.marginBottom = false ∧
      negLength p.marginLeft = false ∧ negLength p.marginRight = false) →
      PageParameters.validate p = some (GoErr.msg "negative value for MarginTop")) ∧
    ((negLength p.paperWidth = false ∧ negLength p.paperHeight = false ∧
      negLength p.marginTop = false ∧ negLength p.marginBottom = true ∧
      negLength p.marginLeft = false ∧ negLength p.marginRight = false) →
      PageParameters.validate p = some (GoErr.msg "negative value for MarginBottom")) ∧
    ((negLength p.paperWidth = false ∧ negLength p.paperHeight = false ∧
      negLength p.marginTop = false ∧ negLength p.marginBottom = false ∧
      negLength p.marginLeft = true ∧ negLength p.marginRight = false) →
      PageParameters.validate p = some (GoErr.msg "negative value for MarginLeft")) ∧
    ((negLength p.paperWidth = false ∧ negLength p.paperHeight = false ∧
      negLength p.marginTop = false ∧ negLength p.marginBottom = false ∧
      negLength p.marginLeft = false ∧ negLength p.marginRight = true) →
      PageParameters.validate p = some (GoErr.msg "negative value for MarginRight")) := by
  refine ⟨?_, ?_, ?_, ?_, ?_, ?_, ?_⟩ <;>
    rintro ⟨h1, h2, h3, h4, h5, h6⟩
  · rcases hp : p.pageSize with _ | ps
    · simp [PageParameters.validate, h1, h2, h3, h4, h5, h6, hp]
    · simp [PageParameters.validate, h1, h2, h3, h4, h5, h6, hp, hps ps hp]
  all_goals simp [PageParameters.validate, h1, h2, h3, h4, h5, h6]

/-- Witness for C6: the all-absent parameters validate, and making only
the paper width negative fails with the PaperWidth error. -/
theorem c6_page_parameters_validate_witness :
    PageParameters.validate ppZero = none ∧
    PageParameters.validate ppNegWidth = some (GoErr.msg "negative value for PaperWidth") :=
  ⟨(c6_page_parameters_validate ppZero (fun _ h => by cases h)).1 (by decide),
   (c6_page_parameters_validate ppNegWidth (fun _ h => by cases h)).2.1 (by decide)⟩

/-- Claim C7, code-bug evidence: converting 1 inch to points and back to
inches yields 139/640000 (about 0.000217), not 1 — the constants
`inchToPoint = 1/64` and `pointToInch = 0.0139` are not mutually inverse,
far beyond floating-point rounding — while the millimeter round trips
through points and through inches are exact. -/
theorem c7_inch_point_conversion_bug :
    Point.inches (Inch.points 1) = 139 / 640000 ∧
    Point.inches (Inch.points 1) < 1 / 100 ∧
    Point.millimeters (Millimeter.points 1) = 1 ∧
    Inch.millimeters (Millimeter.inches 1) = 1 := by
  refine ⟨?_, ?_, ?_, ?_⟩ <;>
    norm_num [Point.inches, Inch.points, Point.millimeters, Millimeter.points,
      Inch.millimeters, Millimeter.inches, inchToPoint, pointToInch, mmToPoint,
      pointToMm, mmToInch, inchToMm]

/-- Claim C8: a non-zero query `TimeoutDuration` is used as the HTTP
timeout of that call only — the call operates on a copy of the stored
client, the stored client is unchanged after the call, and a subsequent
call with a zero-timeout query uses the 30-second default installed by
`New` again. -/
theorem c8_timeout_override (o : Options) (q q' : Query)
    (hq : q.timeoutDuration ≠ 0) (hq' : q'.timeoutDuration = 0) :
    ((convertCallClient (new o) q).1).timeout = q.timeoutDuration ∧
    (convertCallClient (new o) q).2 = new o ∧
    ((convertCallClient ((convertCallClient (new o) q).2) q').1).timeout = 30 * second := by
  refine ⟨?_, rfl, ?_⟩
  · simp [convertCallClient, hq]
  · simp only [convertCallClient, hq', ne_eq, not_true_eq_false, if_false, new]
    split <;> split <;> rfl

/-- Witness for C8: a one-second override is used for the first call and
the follow-up zero-timeout call is back on the 30-second default. -/
theorem c8_timeout_override_witness :
    ((convertCallClient (new o0) { zeroQuery with timeoutDuration := second }).1).timeout
      = second ∧
    (convertCallClient (new o0) { zeroQuery with timeoutDuration := second }).2 = new o0 ∧
    ((convertCallClient
        ((convertCallClient (new o0) { zeroQuery with timeoutDuration := second }).2)
        zeroQuery).1).timeout = 30 * second :=
  c8_timeout_override o0 { zeroQuery with timeoutDuration := second } zeroQuery
    (by decide) rfl

/-- For an in-range page size the name guard of `PageSize.String` is not
taken, so the name is the table slice. -/
theorem pageSizeToName_in_range (i : Nat) (hi : i < 24) :
    PageSize.toName (Int.ofNat i) = pageSizeSlice i := by
  have h1 : ¬ (Int.ofNat i < 0 ∨ Int.ofNat i ≥ 24) := by
    push_neg
    refine ⟨Int.ofNat_nonneg i, ?_⟩
    exact Int.ofNat_lt.mpr hi
  unfold PageSize.toName
  rw [if_neg h1]
  simp

/-- A string that differs from every key of a sliced-name association
list is not found by `lookup`. -/
theorem lookup_slice_map_eq_none (s : String) (l : List Nat)
    (hs : ∀ i ∈ l, s ≠ pageSizeSlice i) :
    (l.map (fun i => (pageSizeSlice i, Int.ofNat i))).lookup s = none := by
  induction l with
  | nil => rfl
  | cons a t ih =>
    have hne : (s == pageSizeSlice a) = false :=
      beq_eq_false_iff_ne.mpr (hs a (List.mem_cons_self a t))
    simp only [List.map_cons, List.lookup, hne]
    exact ih (fun i hi => hs i (List.mem_cons_of_mem a hi))

/-- Claim C9: for every enumerated page size (0 = Undefined through 23 =
Letter), looking the name produced by `PageSize.String` up via
`PageSizeString` returns the same value, and every string that is not one
of those canonical names is rejected with the does-not-belong error. -/
theorem c9_pagesize_roundtrip :
    (∀ p : Fin 24,
      pageSizeString (PageSize.toName (Int.ofNat p.val)) = Except.ok (Int.ofNat p.val)) ∧
    (∀ s : String, (∀ p : Fin 24, s ≠ PageSize.toName (Int.ofNat p.val)) →
      pageSizeString s
        = Except.error (GoErr.msg (s ++ " does not belong to PageSize values"))) := by
  constructor
  · decide
  · intro s hs
    have hs2 : ∀ i ∈ List.range 24, s ≠ pageSizeSlice i := by
      intro i hi
      have hlt := List.mem_range.mp hi
      have hne := hs ⟨i, hlt⟩
      rwa [pageSizeToName_in_range i hlt] at hne
    have hnone : pageSizeMap.lookup s = none := by
      unfold pageSizeMap
      exact lookup_slice_map_eq_none s (List.range 24) hs2
    simp [pageSizeString, hnone]

/-- Witness for C9: the round trip at `A4` (value 4), and the rejection
of "bogus", which is none of the canonical names. -/
theorem c9_pagesize_roundtrip_witness :
    pageSizeString (PageSize.toName 4) = Except.ok 4 ∧
    pageSizeString "bogus"
      = Except.error (GoErr.msg ("bogus" ++ " does not belong to PageSize values")) :=
  ⟨c9_pagesize_roundtrip.1 ⟨4, by decide⟩, c9_pagesize_roundtrip.2 "bogus" (by decide)⟩

/-- Claim C10: `New` installs a 30-second HTTP timeout regardless of the
caller-supplied `DefaultTimeout` (including one set through
`WithDefaultTimeout`), defaults the port to 8080 whenever the given port
is non-positive, and defaults the hostname to 127.0.0.1 whenever the
given hostname is empty. -/
theorem c10_new_defaults (o : Options) (d : Int) :
    (new o).httpClient.timeout = 30 * second ∧
    (new (withDefaultTimeout d o)).httpClient.timeout = 30 * second ∧
    (new o).options.defaultTimeout = 30 * second ∧
    (o.port ≤ 0 → (new o).options.port = 8080) ∧
    (o.hostname = "" → (new o).options.hostname = "127.0.0.1") := by
  refine ⟨?_, ?_, ?_, ?_, ?_⟩
  · simp only [new]; split <;> split <;> rfl
  · simp only [new, withDefaultTimeout]; split <;> split <;> rfl
  · simp only [new]; split <;> split <;> rfl
  · intro h
    simp only [new, h, if_pos, if_true]
    split <;> rfl
  · intro h
    simp only [new]
    split <;> simp [h]

/-- Witness for C10: the zero-value options (port 0, empty hostname,
zero caller timeout) produce the 30-second timeout, port 8080 and
hostname 127.0.0.1. -/
theorem c10_new_defaults_witness :
    (new o0).httpClient.timeout = 30 * second ∧
    (new (withDefaultTimeout 5 o0)).httpClient.timeout = 30 * second ∧
    (new o0).options.port = 8080 ∧
    (new o0).options.hostname = "127.0.0.1" :=
  ⟨(c10_new_defaults o0 5).1, (c10_new_defaults o0 5).2.1,
   (c10_new_defaults o0 5).2.2.2.1 (by decide), (c10_new_defaults o0 5).2.2.2.2 rfl⟩

end GoHTML
